import Mathlib

/-!
Verification of the documentation repository consisting of two Jupyter
notebooks (`docs/docs/integrations/chat/novita.ipynb` and
`docs/docs/integrations/graphs/kuzu_db.ipynb`) and the `Check Broken Links`
GitHub Actions workflow shipped alongside the chat notebook.

The workflow is embedded structurally (triggers, permissions, job guard,
steps) and the notebooks' code cells are embedded as their exact source
lines, so that syntactic properties of the material (absence of error
handling, of control flow, of retry logic, ...) are decidable computations
over the embedded text.
-/

/- ### Generic character-list utilities used to scan the embedded sources -/

/-- Drop the leading space characters of a line (Python indentation). -/
def dropSpaces : List Char → List Char
  | [] => []
  | c :: cs => if c = ' ' then dropSpaces cs else c :: cs

/-- `occursIn pat cs` holds when `pat` occurs as a contiguous subsequence of
`cs`. -/
def occursIn (pat : List Char) : List Char → Bool
  | [] => pat.isEmpty
  | c :: cs => pat.isPrefixOf (c :: cs) || occursIn pat cs

/-- `strContains l sub` holds when the string `sub` occurs inside the line
`l`. -/
def strContains (l sub : String) : Bool :=
  occursIn sub.data l.data

/-- `startsKw kw l` holds when line `l`, after stripping its indentation,
begins with the text `kw`. -/
def startsKw (kw : String) (l : String) : Bool :=
  kw.data.isPrefixOf (dropSpaces l.data)

/-- A character that may appear in a Python identifier. -/
def isIdentChar (c : Char) : Bool :=
  c.isAlphanum || c = '_'

/-- A call pattern: an identifier character immediately followed by an
opening parenthesis, the shape of a Python function or constructor call. -/
def callPattern : List Char → Bool
  | [] => false
  | [_] => false
  | a :: b :: rest => (isIdentChar a && b = '(') || callPattern (b :: rest)

/- ### The `Check Broken Links` GitHub Actions workflow, embedded from the
source YAML that accompanies `novita.ipynb`. -/

/-- A GitHub Actions trigger event, as listed under the workflow's `on:`
key.  The constructors cover the event kinds relevant to this repository;
`schedule` carries its cron expression. -/
inductive Trigger
  | push
  | pullRequest
  | workflowDispatch
  | schedule (cron : String)
  | release
deriving DecidableEq

/-- An access level that a workflow's `permissions:` block can request for a
scope. -/
inductive PermLevel
  | read
  | write
deriving DecidableEq

/-- One step of a GitHub Actions job: either a packaged action (`uses`) or a
shell command (`run`), possibly with a working directory, `with:` arguments
and a `continue-on-error` flag (absent in the source, hence `false`). -/
structure Step where
  stepName : Option String
  uses : Option String
  run : Option String
  workingDirectory : Option String
  withArgs : List (String × String)
  continueOnError : Bool
deriving DecidableEq

/-- `- uses: actions/checkout@v4` -/
def checkoutStep : Step where
  stepName := none
  uses := some "actions/checkout@v4"
  run := none
  workingDirectory := none
  withArgs := []
  continueOnError := false

/-- `- name: Use Node.js 18.x` / `uses: actions/setup-node@v4` with the
`with:` block of the source. -/
def setupNodeStep : Step where
  stepName := some "Use Node.js 18.x"
  uses := some "actions/setup-node@v4"
  run := none
  workingDirectory := none
  withArgs := [("node-version", "18.x"), ("cache", "yarn"),
    ("cache-dependency-path", "./docs/yarn.lock")]
  continueOnError := false

/-- `- name: Install dependencies` running `yarn install --immutable
--mode=skip-build` in `./docs`. -/
def installStep : Step where
  stepName := some "Install dependencies"
  uses := none
  run := some "yarn install --immutable --mode=skip-build"
  workingDirectory := some "./docs"
  withArgs := []
  continueOnError := false

/-- `- name: Check broken links` running `yarn check-broken-links` in
`./docs`. -/
def linkCheckStep : Step where
  stepName := some "Check broken links"
  uses := none
  run := some "yarn check-broken-links"
  workingDirectory := some "./docs"
  withArgs := []
  continueOnError := false

/-- A GitHub Actions job: the runner label and the ordered list of steps. -/
structure Job where
  runsOn : String
  steps : List Step
deriving DecidableEq

/-- The `check-links` job of the workflow. -/
def checkLinksJob : Job where
  runsOn := "ubuntu-latest"
  steps := [checkoutStep, setupNodeStep, installStep, linkCheckStep]

/-- The `if:` expression guarding the `check-links` job, from the source:
`github.repository_owner == 'langchain-ai' || github.event_name !=
'schedule'`, as a function of the repository owner and the triggering
event's name. -/
def checkLinksGuard (repositoryOwner eventName : String) : Bool :=
  repositoryOwner == "langchain-ai" || eventName != "schedule"

/-- A GitHub Actions workflow: name, triggers, requested permissions and
jobs. -/
structure Workflow where
  workflowName : String
  triggers : List Trigger
  permissions : List (String × PermLevel)
  jobs : List (String × Job)

/-- The `Check Broken Links` workflow, embedded from its YAML source. -/
def checkBrokenLinks : Workflow where
  workflowName := "Check Broken Links"
  triggers := [Trigger.workflowDispatch, Trigger.schedule "0 13 * * *"]
  permissions := [("contents", PermLevel.read)]
  jobs := [("check-links", checkLinksJob)]

/- ### Modelled GitHub Actions semantics for the embedded workflow -/

/-- A run of a workflow is started by the event `t` exactly when `t` is one
of the workflow's declared triggers. -/
def startsRun (w : Workflow) (t : Trigger) : Prop :=
  t ∈ w.triggers

instance (w : Workflow) (t : Trigger) : Decidable (startsRun w t) := by
  unfold startsRun
  infer_instance

/-- Given the success value of each step, a job succeeds exactly when every
step succeeds or is marked continue-on-error; a failing step that is not
continue-on-error fails the whole job. -/
def jobSucceeds (outcome : Step → Bool) (j : Job) : Bool :=
  j.steps.all fun s => outcome s || s.continueOnError

/-- The workflow's token may write to the repository's contents only when
the workflow requests `contents: write`. -/
def mayWriteContents (w : Workflow) : Bool :=
  w.permissions.any fun p => p.1 == "contents" && p.2 == PermLevel.write

/-- A dependency-installation command (the `yarn install ...` setup step of
the job). -/
def isSetupCommand (c : String) : Bool :=
  strContains c "install"

/-- A substantive step of a job: one that runs a shell command that is not
environment setup.  Steps invoking packaged actions (`uses`: source
checkout, runtime provisioning) and dependency installation are setup, not
substantive work. -/
def isSubstantive (s : Step) : Bool :=
  match s.run with
  | some c => !(isSetupCommand c)
  | none => false

/-- A trigger that is a (cron) schedule. -/
def isScheduleTrigger : Trigger → Bool
  | Trigger.schedule _ => true
  | _ => false

/- ### Theorems for the workflow claims -/

/-- Claim C2: for every run of the `Check Broken Links` workflow, the
triggering event is either the daily cron schedule `0 13 * * *` or a manual
`workflow_dispatch`; no other event starts the workflow. -/
theorem c2_triggers_only_cron_and_dispatch (t : Trigger) :
    startsRun checkBrokenLinks t ↔
      t = Trigger.workflowDispatch ∨ t = Trigger.schedule "0 13 * * *" := by
  simp [startsRun, checkBrokenLinks]

/-- Claim C3: the `check-links` job is guarded: on a `schedule` event it
executes exactly when the repository owner is `langchain-ai`; on any other
event it executes regardless of the owner. -/
theorem c3_job_guard_schedule_owner :
    (∀ owner : String,
      checkLinksGuard owner "schedule" = true ↔ owner = "langchain-ai") ∧
    (∀ (owner eventName : String), eventName ≠ "schedule" →
      checkLinksGuard owner eventName = true) := by
  constructor
  · intro owner
    simp [checkLinksGuard]
  · intro owner eventName h
    simp [checkLinksGuard, h]

/-- Witness for C3: a concrete owner and a concrete non-schedule event on
which the guard lets the job run. -/
theorem c3_job_guard_witness :
    checkLinksGuard "jasonhp" "workflow_dispatch" = true :=
  c3_job_guard_schedule_owner.2 "jasonhp" "workflow_dispatch" (by decide)

/-- Claim C7: the workflow requests only read permission on repository
contents, so under the modelled permission semantics no run of the workflow
may write to the repository's contents. -/
theorem c7_contents_read_only :
    checkBrokenLinks.permissions = [("contents", PermLevel.read)] ∧
    mayWriteContents checkBrokenLinks = false := by
  constructor
  · rfl
  · decide

/-- Claim C1: the only substantive step of the `check-links` job invokes
`yarn check-broken-links` in `./docs`, it is the job's final step, and when
the setup steps (checkout, Node provisioning, dependency installation)
succeed the job's outcome equals the outcome of that link-check script. -/
theorem c1_link_check_sole_outcome :
    checkLinksJob.steps.filter isSubstantive = [linkCheckStep] ∧
    linkCheckStep.run = some "yarn check-broken-links" ∧
    linkCheckStep.workingDirectory = some "./docs" ∧
    checkLinksJob.steps.getLast? = some linkCheckStep ∧
    ∀ outcome : Step → Bool,
      outcome checkoutStep = true →
      outcome setupNodeStep = true →
      outcome installStep = true →
      jobSucceeds outcome checkLinksJob = outcome linkCheckStep := by
  refine ⟨by decide, rfl, rfl, by decide, ?_⟩
  intro outcome h1 h2 h3
  simp only [jobSucceeds, checkLinksJob, List.all_cons, List.all_nil,
    h1, h2, h3]
  simp [checkoutStep, setupNodeStep, installStep, linkCheckStep]

/-- Witness for C1: with every step succeeding, the job's outcome is the
link-check step's outcome. -/
theorem c1_link_check_witness :
    jobSucceeds (fun _ => true) checkLinksJob = true :=
  c1_link_check_sole_outcome.2.2.2.2 (fun _ => true) rfl rfl rfl

/- ### The notebooks' code cells, embedded as their exact source lines.
Markdown and raw prose cells carry no executable content; the claims below
quantify over the code cells, embedded here in order. -/

/-- The source lines of `novita.ipynb`'s code cells, in notebook order.
Literal braces of the Python sources are written with their character
escapes. -/
def novitaCodeCells : List (List String) :=
  [ [ "import getpass",
      "import os",
      "",
      "if \"NOVITA_API_KEY\" not in os.environ:",
      "    os.environ[\"NOVITA_API_KEY\"] = getpass.getpass(\"Enter your Novita API key: \")" ],
    [ "# os.environ[\"LANGSMITH_API_KEY\"] = getpass.getpass(\"Enter your LangSmith API key: \")",
      "# os.environ[\"LANGSMITH_TRACING\"] = \"true\"" ],
    [ "%pip install -qU langchain-community" ],
    [ "from langchain_community.chat_models.novita import ChatNovita",
      "from langchain_core.messages import HumanMessage, SystemMessage",
      "",
      "llm = ChatNovita(",
      "    model=\"meta-llama/llama-3.1-8b-instruct\",",
      "    temperature=0,",
      "    max_tokens=None,",
      "    timeout=None,",
      "    max_retries=2,",
      "    # other params...",
      ")" ],
    [ "messages = [",
      "    SystemMessage(",
      "        content=\"You are a helpful assistant that translates English to French.\"",
      "    ),",
      "    HumanMessage(",
      "        content=\"Translate this sentence from English to French. I love programming.\"",
      "    ),",
      "]",
      "ai_msg = llm.invoke(messages)",
      "ai_msg" ],
    [ "print(ai_msg.content)" ],
    [ "from langchain_core.prompts import ChatPromptTemplate",
      "",
      "prompt = ChatPromptTemplate.from_messages(",
      "    [",
      "        (",
      "            \"system\",",
      "            \"You are a helpful assistant that translates \x7binput_language\x7d to \x7boutput_language\x7d.\",",
      "        ),",
      "        (\"human\", \"\x7binput\x7d\"),",
      "    ]",
      ")",
      "",
      "chain = prompt | llm",
      "chain.invoke(",
      "    \x7b",
      "        \"input_language\": \"English\",",
      "        \"output_language\": \"German\",",
      "        \"input\": \"I love programming.\",",
      "    \x7d",
      ")" ] ]

/-- The source lines of `kuzu_db.ipynb`'s code cells, in notebook order. -/
def kuzuCodeCells : List (List String) :=
  [ [ "import kuzu",
      "",
      "db = kuzu.Database(\"test_db\")",
      "conn = kuzu.Connection(db)" ],
    [ "from langchain_kuzu.graphs.kuzu_graph import KuzuGraph",
      "",
      "graph = KuzuGraph(db, allow_dangerous_requests=True)" ],
    [ "text = \"Tim Cook is the CEO of Apple. Apple has its headquarters in California.\"" ],
    [ "# Define schema",
      "allowed_nodes = [\"Person\", \"Company\", \"Location\"]",
      "allowed_relationships = [",
      "    (\"Person\", \"IS_CEO_OF\", \"Company\"),",
      "    (\"Company\", \"HAS_HEADQUARTERS_IN\", \"Location\"),",
      "]" ],
    [ "from langchain_core.documents import Document",
      "from langchain_experimental.graph_transformers import LLMGraphTransformer",
      "from langchain_openai import ChatOpenAI",
      "",
      "# Define the LLMGraphTransformer",
      "llm_transformer = LLMGraphTransformer(",
      "    llm=ChatOpenAI(model=\"gpt-4o-mini\", temperature=0, api_key=OPENAI_API_KEY),  # noqa: F821",
      "    allowed_nodes=allowed_nodes,",
      "    allowed_relationships=allowed_relationships,",
      ")",
      "",
      "documents = [Document(page_content=text)]",
      "graph_documents = llm_transformer.convert_to_graph_documents(documents)" ],
    [ "graph_documents[:2]" ],
    [ "# Add the graph document to the graph",
      "graph.add_graph_documents(",
      "    graph_documents,",
      "    include_source=True,",
      ")" ],
    [ "from langchain_kuzu.chains.graph_qa.kuzu import KuzuQAChain",
      "",
      "# Create the KuzuQAChain with verbosity enabled to see the generated Cypher queries",
      "chain = KuzuQAChain.from_llm(",
      "    llm=ChatOpenAI(model=\"gpt-4o-mini\", temperature=0.3, api_key=OPENAI_API_KEY),  # noqa: F821",
      "    graph=graph,",
      "    verbose=True,",
      "    allow_dangerous_requests=True,",
      ")" ],
    [ "chain.invoke(\"Who is the CEO of Apple?\")" ],
    [ "chain.invoke(\"Where is Apple headquartered?\")" ],
    [ "graph.refresh_schema()",
      "",
      "print(graph.get_schema)" ],
    [ "chain = KuzuQAChain.from_llm(",
      "    cypher_llm=ChatOpenAI(temperature=0, model=\"gpt-4o-mini\"),",
      "    qa_llm=ChatOpenAI(temperature=0, model=\"gpt-4\"),",
      "    graph=graph,",
      "    verbose=True,",
      "    allow_dangerous_requests=True,",
      ")" ],
    [ "chain.invoke(\"Who is the CEO of Apple?\")" ] ]

/-- All source lines of the two notebooks' code cells. -/
def allNotebookLines : List String :=
  (novitaCodeCells ++ kuzuCodeCells).flatten

/- ### Python line predicates over the embedded cells -/

/-- A Python function-definition line. -/
def isDefLine (l : String) : Bool :=
  startsKw "def " l

/-- A Python class-definition line. -/
def isClassLine (l : String) : Bool :=
  startsKw "class " l

/-- A Python control-flow line: a line opening a conditional, a loop, an
exception handler or a context-manager block. -/
def isControlFlowLine (l : String) : Bool :=
  startsKw "if " l || startsKw "elif " l || startsKw "else" l ||
  startsKw "for " l || startsKw "while " l || startsKw "try" l ||
  startsKw "except" l || startsKw "finally" l || startsKw "with " l ||
  startsKw "match " l

/-- An error-handling line: Python exception syntax (handlers or raises). -/
def isErrorHandlingLine (l : String) : Bool :=
  startsKw "try" l || startsKw "except" l || startsKw "finally" l ||
  strContains l "raise "

/-- A looping line, the shape a hand-written retry loop would take. -/
def isLoopLine (l : String) : Bool :=
  startsKw "for " l || startsKw "while " l

/-- A step whose shell command contains a `||` fallback alternative. -/
def runHasFallback (s : Step) : Bool :=
  match s.run with
  | some c => strContains c "||"
  | none => false

/- ### Theorems for the notebook claims -/

/-- Claim C4: no operation in the repository catches, transforms or
recovers from an error: no code cell line opens a try/except/finally
handler or raises, no cell contains a (retry) loop, and every CI step
propagates failure unchanged (no continue-on-error, no `||` fallback in a
command), so a failing step fails the whole job. -/
theorem c4_no_error_recovery :
    allNotebookLines.all (fun l => !(isErrorHandlingLine l)) = true ∧
    allNotebookLines.all (fun l => !(isLoopLine l)) = true ∧
    checkLinksJob.steps.all (fun s => !(s.continueOnError)) = true ∧
    checkLinksJob.steps.all (fun s => !(runHasFallback s)) = true ∧
    ∀ (outcome : Step → Bool) (s : Step), s ∈ checkLinksJob.steps →
      outcome s = false → jobSucceeds outcome checkLinksJob = false := by
  refine ⟨by decide, by decide, by decide, by decide, ?_⟩
  intro outcome s hs hfail
  have hsteps : s = checkoutStep ∨ s = setupNodeStep ∨ s = installStep ∨
      s = linkCheckStep := by
    simpa [checkLinksJob] using hs
  rcases hsteps with h | h | h | h <;> subst h <;>
    simp only [jobSucceeds, checkLinksJob, List.all_cons, List.all_nil,
      hfail] <;>
    simp [checkoutStep, setupNodeStep, installStep, linkCheckStep]

/-- Witness for C4: a run where the checkout step fails makes the whole job
fail. -/
theorem c4_no_error_recovery_witness :
    jobSucceeds (fun _ => false) checkLinksJob = false :=
  c4_no_error_recovery.2.2.2.2 (fun _ => false) checkoutStep (by decide) rfl

/-- The property claimed by C5, over the embedded cells: no function
definition, class definition or control-flow construct occurs in any code
cell of the two notebooks. -/
def noDefinedConstructs : Bool :=
  allNotebookLines.all fun l =>
    !(isDefLine l) && !(isClassLine l) && !(isControlFlowLine l)

/-- Counterexample to claim C5: the first code cell of `novita.ipynb`
contains the control-flow line `if "NOVITA_API_KEY" not in os.environ:`, so
the claim that no control-flow construct occurs in the notebooks is
false. -/
theorem c5_counterexample_api_key_conditional :
    noDefinedConstructs = false ∧
    isControlFlowLine "if \"NOVITA_API_KEY\" not in os.environ:" = true ∧
    "if \"NOVITA_API_KEY\" not in os.environ:" ∈ allNotebookLines := by
  refine ⟨by decide, by decide, by decide⟩

/-- Claim C5 as amended: the notebooks' code cells define no function and
no class, and the only control-flow construct they contain is the single
`if` statement guarding the API-key prompt in the setup cell of
`novita.ipynb`. -/
theorem c5_amended_only_api_key_conditional :
    allNotebookLines.all (fun l => !(isDefLine l) && !(isClassLine l)) = true ∧
    allNotebookLines.filter isControlFlowLine =
      ["if \"NOVITA_API_KEY\" not in os.environ:"] := by
  exact ⟨by decide, by decide⟩

/-- Every line of the material (notebook code cells and workflow commands)
that mentions retries, i.e. contains the text `retr`. -/
def retryMentions : List String :=
  (allNotebookLines ++ checkLinksJob.steps.filterMap (fun s => s.run)).filter
    fun l => strContains l "retr"

/-- Claim C6: the only retry-related text in the material is the
`max_retries=2` line; it sits inside the `ChatNovita(...)` constructor call
of the instantiation cell of `novita.ipynb` (between the line opening the
call and its closing parenthesis), and no line of the material implements
error handling, a loop, or a context-managed resource of its own. -/
theorem c6_max_retries_is_parameter_only :
    retryMentions = ["    max_retries=2,"] ∧
    (novitaCodeCells.getD 3 []).getD 3 "" = "llm = ChatNovita(" ∧
    (novitaCodeCells.getD 3 []).getD 8 "" = "    max_retries=2," ∧
    (novitaCodeCells.getD 3 []).getD 10 "" = ")" ∧
    allNotebookLines.all (fun l =>
      !(isErrorHandlingLine l) && !(isLoopLine l) &&
      !(startsKw "with " l)) = true := by
  refine ⟨by decide, by decide, by decide, by decide, by decide⟩

/-- The property claimed by C8, over the embedded material: no scheduling
construct is present, i.e. no trigger of the workflow is a cron
schedule. -/
def noSchedulingPresent : Bool :=
  checkBrokenLinks.triggers.all fun t => !(isScheduleTrigger t)

/-- Counterexample to claim C8: the supplied material does contain a
scheduling construct, namely the cron trigger `0 13 * * *` of the `Check
Broken Links` workflow. -/
theorem c8_counterexample_cron_trigger :
    noSchedulingPresent = false ∧
    Trigger.schedule "0 13 * * *" ∈ checkBrokenLinks.triggers := by
  exact ⟨by decide, by decide⟩

/-- Claim C8 as amended: no concurrency or resource-sharing logic is
present in the supplied material, and the only scheduling construct is the
workflow's declarative cron trigger `0 13 * * *`, executed by the CI
platform rather than by code of the repository. -/
theorem c8_amended_only_cron_trigger :
    checkBrokenLinks.triggers.filter isScheduleTrigger =
      [Trigger.schedule "0 13 * * *"] ∧
    allNotebookLines.all (fun l =>
      !(strContains l "thread") && !(strContains l "async") &&
      !(strContains l "await") && !(strContains l "concurrent") &&
      !(strContains l "multiprocessing") && !(strContains l "Lock")) =
      true := by
  exact ⟨by decide, by decide⟩

/-- Claim C9: the repository defines no data entities of its own: no class
or function definition occurs in any code cell, and the schema cell of
`kuzu_db.ipynb` contributes only constant lists of strings and tuples — no
line of it contains a function or constructor call. -/
theorem c9_no_owned_entities :
    allNotebookLines.all (fun l => !(isClassLine l) && !(isDefLine l)) =
      true ∧
    kuzuCodeCells.getD 3 [] =
      [ "# Define schema",
        "allowed_nodes = [\"Person\", \"Company\", \"Location\"]",
        "allowed_relationships = [",
        "    (\"Person\", \"IS_CEO_OF\", \"Company\"),",
        "    (\"Company\", \"HAS_HEADQUARTERS_IN\", \"Location\"),",
        "]" ] ∧
    (kuzuCodeCells.getD 3 []).all (fun l => !(callPattern l.data)) =
      true := by
  refine ⟨by decide, by decide, by decide⟩

/-- The property claimed by C10, instantiated at the one piece of decision
logic the repository defines: if the repository contained no original logic
whose behavior could be specified as testable invariants, the `check-links`
job guard could not distinguish any inputs, i.e. it would be a constant
function. -/
def guardIsConstant : Prop :=
  ∀ o1 e1 o2 e2 : String, checkLinksGuard o1 e1 = checkLinksGuard o2 e2

/-- Counterexample to claim C10: the job guard is repository-defined logic
with specifiable, testable behavior — at the explicit inputs below it lets
the job run for owner `langchain-ai` and blocks it for owner `jasonhp` on a
`schedule` event, so it is not constant. -/
theorem c10_counterexample_guard_is_testable :
    (checkLinksGuard "langchain-ai" "schedule" = true ∧
      checkLinksGuard "jasonhp" "schedule" = false) ∧
    ¬ guardIsConstant := by
  refine ⟨⟨by decide, by decide⟩, ?_⟩
  intro h
  have hc := h "langchain-ai" "schedule" "jasonhp" "schedule"
  simp [checkLinksGuard] at hc

/-- Claim C10 as amended: the notebooks contain no original logic (no
function or class definitions), and the only original logic in the material
whose behavior can be specified as a testable invariant is the CI job's
guard condition, whose invariant is: the job may run exactly when the
repository owner is `langchain-ai` or the triggering event is not
`schedule`. -/
theorem c10_amended_guard_invariant :
    allNotebookLines.all (fun l => !(isDefLine l) && !(isClassLine l) &&
      !(isControlFlowLine l) || l = "if \"NOVITA_API_KEY\" not in os.environ:") = true ∧
    ∀ owner eventName : String,
      checkLinksGuard owner eventName = true ↔
        owner = "langchain-ai" ∨ eventName ≠ "schedule" := by
  constructor
  · decide
  · intro owner eventName
    simp [checkLinksGuard]
